import Mathlib

/-!
Verification development for the whatsapp-lite-mcp bridge.

This file gives a shallow embedding, in Lean, of the parts of the Go source
that the checked properties speak about:

* the webhook configuration types and their JSON serialization
  (internal/types, `MaskSecret`, `WebhookConfig.ToResponse`);
* the SQLite-backed message store (internal/database): chats, messages,
  webhook configs, triggers and delivery logs, with `INSERT OR REPLACE`,
  transactional update and the non-transactional cascade delete modelled
  as explicit state transitions on a `DB` value;
* the SSRF validation pipeline (internal/webhook `isPrivateIP`,
  `ValidateWebhookURL`, `ValidateWebhookConfig`) with DNS resolution and
  URL host extraction abstracted as function parameters;
* the delivery loop (internal/webhook `DeliverWebhook`,
  `sendHTTPRequest`) with the HTTP transport abstracted as a function
  from attempt number to outcome;
* the trigger matcher (internal/webhook `matchesTrigger`,
  `matchesString`), including a concrete model of the regex engine
  (Brzozowski derivatives) for the fragment of patterns the theorems use;
* the media-path guard (internal/whatsapp `validateMediaPath`) with a
  lexical model of `filepath.Clean` / `filepath.Abs`.

External library calls (net.LookupIP, url.Parse, json.Marshal of the
payload, the HTTP client, time.Now) are modelled as explicit parameters or
abstract inputs; SQL statements are translated one by one, each statement
applying atomically to the state, with `db.Exec` calls in autocommit mode
mutating the state directly and statements inside a `tx` acting on a
transaction-local copy that is published on commit.  Byte strings
(response bodies) are modelled as `List Nat`; Go `string` values that the
properties treat textually are modelled as `String`.
-/

namespace Bridge

/-! ## A small JSON value model

`Jx` models the JSON documents produced by Go's `encoding/json` for the
response types involved.  `strVals` collects every string *value*
occurring anywhere in a document (object keys are not values). -/

inductive Jx where
  | str : String → Jx
  | num : Int → Jx
  | bool : Bool → Jx
  | null : Jx
  | arr : List Jx → Jx
  | obj : List (String × Jx) → Jx

mutual

def Jx.strVals : Jx → List String
  | .str s => [s]
  | .num _ => []
  | .bool _ => []
  | .null => []
  | .arr xs => strValsList xs
  | .obj fs => strValsFields fs

def strValsList : List Jx → List String
  | [] => []
  | j :: js => Jx.strVals j ++ strValsList js

def strValsFields : List (String × Jx) → List String
  | [] => []
  | (_, j) :: fs => Jx.strVals j ++ strValsFields fs

end

/-! ## Webhook types (internal/types/webhook.go)

`time.Time` fields are modelled as `String` holding the RFC3339 rendering
that `encoding/json` would emit; integer ids as `Nat`. -/

structure WebhookTrigger where
  id : Nat
  webhookConfigID : Nat
  triggerType : String
  triggerValue : String
  matchType : String
  enabled : Bool
deriving Repr, DecidableEq

structure WebhookConfig where
  id : Nat
  name : String
  webhookURL : String
  secretToken : String
  enabled : Bool
  createdAt : String
  updatedAt : String
  triggers : List WebhookTrigger
deriving Repr, DecidableEq

structure WebhookConfigResponse where
  id : Nat
  name : String
  webhookURL : String
  hasSecret : Bool
  secretHint : String
  enabled : Bool
  createdAt : String
  updatedAt : String
  triggers : List WebhookTrigger
deriving Repr, DecidableEq

/-- Embedding of `types.MaskSecret`.  Go indexes bytes; the secrets the
theorems use are ASCII, where `String.length` and byte length coincide, so
character-level take/drop model the byte slices `secret[:4]` and
`secret[len(secret)-4:]`. -/
def MaskSecret (secret : String) : String :=
  if secret = "" then ""
  else if secret.length ≤ 8 then "****"
  else
    String.mk (secret.data.take 4) ++ "****" ++
      String.mk (secret.data.drop (secret.length - 4))

/-- Embedding of `(*WebhookConfig).ToResponse`. -/
def WebhookConfig.ToResponse (c : WebhookConfig) : WebhookConfigResponse :=
  { id := c.id
    name := c.name
    webhookURL := c.webhookURL
    hasSecret := c.secretToken ≠ ""
    secretHint := MaskSecret c.secretToken
    enabled := c.enabled
    createdAt := c.createdAt
    updatedAt := c.updatedAt
    triggers := c.triggers }

/-- JSON encoding of a `WebhookTrigger`, field for field after the Go
struct tags. -/
def WebhookTrigger.toJson (t : WebhookTrigger) : Jx :=
  .obj [("id", .num t.id), ("webhook_config_id", .num t.webhookConfigID),
        ("trigger_type", .str t.triggerType),
        ("trigger_value", .str t.triggerValue),
        ("match_type", .str t.matchType), ("enabled", .bool t.enabled)]

/-- JSON encoding of a raw `WebhookConfig`: note the `secret_token` field
is serialized in plain text (its Go struct tag has no omission). -/
def WebhookConfig.toJson (c : WebhookConfig) : Jx :=
  .obj [("id", .num c.id), ("name", .str c.name),
        ("webhook_url", .str c.webhookURL),
        ("secret_token", .str c.secretToken), ("enabled", .bool c.enabled),
        ("created_at", .str c.createdAt), ("updated_at", .str c.updatedAt),
        ("triggers", .arr (c.triggers.map WebhookTrigger.toJson))]

/-- JSON encoding of a `WebhookConfigResponse`; `secret_hint` carries
`omitempty`, so an empty hint is omitted from the document. -/
def WebhookConfigResponse.toJson (r : WebhookConfigResponse) : Jx :=
  .obj ([("id", .num r.id), ("name", .str r.name),
         ("webhook_url", .str r.webhookURL),
         ("has_secret", .bool r.hasSecret)] ++
        (if r.secretHint = "" then [] else [("secret_hint", .str r.secretHint)]) ++
        [("enabled", .bool r.enabled), ("created_at", .str r.createdAt),
         ("updated_at", .str r.updatedAt),
         ("triggers", .arr (r.triggers.map WebhookTrigger.toJson))])

/-! ## Database model (internal/database)

Each table is a list of rows; `AUTOINCREMENT` columns are modelled by
`next…ID` counters.  A SQL statement is one atomic step on a `DB`. -/

structure ChatRow where
  jid : String
  name : String
  lastMessageTime : Int
deriving Repr, DecidableEq

structure MessageRow where
  id : String
  chatJID : String
  sender : String
  senderName : String
  content : String
  timestamp : Int
  isFromMe : Bool
  mediaType : String
  filename : String
  url : String
  mediaKey : List Nat
  fileSHA256 : List Nat
  fileEncSHA256 : List Nat
  fileLength : Nat
deriving Repr, DecidableEq

structure ConfigRow where
  id : Nat
  name : String
  webhookURL : String
  secretToken : String
  enabled : Bool
  createdAt : String
  updatedAt : String
deriving Repr, DecidableEq

structure LogRow where
  id : Nat
  webhookConfigID : Nat
  messageID : String
  chatJID : String
  triggerType : String
  triggerValue : String
  payload : String
  responseStatus : Int
  responseBody : List Nat
  attemptCount : Nat
  deliveredAt : Option Int
  createdAt : String
deriving Repr, DecidableEq

structure DB where
  chats : List ChatRow
  messages : List MessageRow
  webhookConfigs : List ConfigRow
  webhookTriggers : List WebhookTrigger
  webhookLogs : List LogRow
  nextConfigID : Nat
  nextTriggerID : Nat
  nextLogID : Nat
deriving Repr, DecidableEq

/-- The empty database produced by `createTables` (ids start at 1, as
SQLite AUTOINCREMENT does). -/
def DB.empty : DB :=
  { chats := [], messages := [], webhookConfigs := [], webhookTriggers := [],
    webhookLogs := [], nextConfigID := 1, nextTriggerID := 1, nextLogID := 1 }

/-- Embedding of `MessageStore.StoreChat`:
`INSERT OR REPLACE INTO chats (jid, name, last_message_time)` — the row
keyed by `jid` is replaced unconditionally with the supplied values. -/
def StoreChat (db : DB) (jid name : String) (lastMessageTime : Int) : DB :=
  { db with chats :=
      ⟨jid, name, lastMessageTime⟩ :: db.chats.filter (fun r => r.jid ≠ jid) }

/-- Embedding of `MessageStore.StoreMessage`: drops the write when content
and media type are both empty, substitutes the sender JID for an empty
sender name, then `INSERT OR REPLACE` keyed by the primary key
`(id, chat_jid)`. -/
def StoreMessage (db : DB) (id chatJID sender senderName content : String)
    (timestamp : Int) (isFromMe : Bool) (mediaType filename url : String)
    (mediaKey fileSHA256 fileEncSHA256 : List Nat) (fileLength : Nat) : DB :=
  if content = "" ∧ mediaType = "" then db
  else
    let sn := if senderName = "" then sender else senderName
    let row : MessageRow :=
      ⟨id, chatJID, sender, sn, content, timestamp, isFromMe, mediaType,
       filename, url, mediaKey, fileSHA256, fileEncSHA256, fileLength⟩
    { db with messages :=
        row :: db.messages.filter (fun r => ¬(r.id = id ∧ r.chatJID = chatJID)) }

/-- Rows inserted by the trigger-insertion loops of `StoreWebhookConfig`
and `UpdateWebhookConfig`: each trigger is written with the owning config
id and receives a fresh AUTOINCREMENT id. -/
def insertedRows (startID cfgID : Nat) : List WebhookTrigger → List WebhookTrigger
  | [] => []
  | t :: ts =>
      ⟨startID, cfgID, t.triggerType, t.triggerValue, t.matchType, t.enabled⟩ ::
        insertedRows (startID + 1) cfgID ts

/-- Embedding of `MessageStore.StoreWebhookConfig`: insert the config row
(`created_at` / `updated_at` default to CURRENT_TIMESTAMP, passed here as
`now`), read back `LastInsertId` into `config.ID`, then insert each
trigger with the new config id, setting the triggers' ids in the returned
value.  The Go code leaves the in-memory struct's timestamp fields
untouched, which the returned `WebhookConfig` mirrors. -/
def StoreWebhookConfig (db : DB) (config : WebhookConfig) (now : String) :
    DB × WebhookConfig :=
  let id := db.nextConfigID
  let row : ConfigRow :=
    ⟨id, config.name, config.webhookURL, config.secretToken, config.enabled,
     now, now⟩
  let rows := insertedRows db.nextTriggerID id config.triggers
  ({ db with
      webhookConfigs := db.webhookConfigs ++ [row]
      nextConfigID := id + 1
      webhookTriggers := db.webhookTriggers ++ rows
      nextTriggerID := db.nextTriggerID + config.triggers.length },
   { config with id := id, triggers := rows })

/-- Embedding of `MessageStore.GetWebhookTriggers`. -/
def GetWebhookTriggers (db : DB) (webhookConfigID : Nat) : List WebhookTrigger :=
  db.webhookTriggers.filter (fun t => t.webhookConfigID == webhookConfigID)

/-- Embedding of `MessageStore.GetWebhookConfig`: select the row by id and
attach its triggers; an absent row surfaces as `none` (sql.ErrNoRows). -/
def GetWebhookConfig (db : DB) (id : Nat) : Option WebhookConfig :=
  (db.webhookConfigs.find? (fun r => r.id == id)).map (fun r =>
    { id := r.id, name := r.name, webhookURL := r.webhookURL,
      secretToken := r.secretToken, enabled := r.enabled,
      createdAt := r.createdAt, updatedAt := r.updatedAt,
      triggers := GetWebhookTriggers db id })

/-- Embedding of `MessageStore.GetAllWebhookConfigs` (the ORDER BY only
permutes the list and is not modelled). -/
def GetAllWebhookConfigs (db : DB) : List WebhookConfig :=
  db.webhookConfigs.map (fun r =>
    { id := r.id, name := r.name, webhookURL := r.webhookURL,
      secretToken := r.secretToken, enabled := r.enabled,
      createdAt := r.createdAt, updatedAt := r.updatedAt,
      triggers := GetWebhookTriggers db r.id })

/-- Embedding of `MessageStore.StoreWebhookLog`: plain INSERT, the id
comes from AUTOINCREMENT. -/
def StoreWebhookLog (db : DB) (log : LogRow) : DB :=
  { db with
      webhookLogs := db.webhookLogs ++ [{ log with id := db.nextLogID }]
      nextLogID := db.nextLogID + 1 }

/-! ## Transactional update and cascade delete

`UpdateWebhookConfig` runs inside `db.Begin()` … `tx.Commit()` with a
deferred rollback: its statements act on a transaction-local state and
only a successful commit publishes it — the `Except` result carries the
published state, an error publishes nothing.  `DeleteWebhookConfig`, in
contrast, issues three separate autocommit `db.Exec` statements, so each
one that runs mutates the store immediately.  `FaultSpec` /
`DeleteFaults` inject statement-level failures (the `error` results of
`Exec`) to make failure behaviour observable. -/

structure FaultSpec where
  updateFails : Bool
  deleteTriggersFails : Bool
  insertTriggerFails : Nat → Bool
  commitFails : Bool

def noFaults : FaultSpec :=
  { updateFails := false, deleteTriggersFails := false,
    insertTriggerFails := fun _ => false, commitFails := false }

/-- The trigger-insertion loop of `UpdateWebhookConfig`: `tx.Exec(INSERT
INTO webhook_triggers …)` for each trigger, reading back LastInsertId. -/
def insertTriggersLoop (cfgID : Nat) (fails : Nat → Bool) :
    List WebhookTrigger → Nat → DB → Except String DB
  | [], _, tx => .ok tx
  | t :: ts, i, tx =>
      if fails i then .error "failed to insert trigger"
      else
        insertTriggersLoop cfgID fails ts (i + 1)
          { tx with
              webhookTriggers := tx.webhookTriggers ++
                [⟨tx.nextTriggerID, cfgID, t.triggerType, t.triggerValue,
                  t.matchType, t.enabled⟩]
              nextTriggerID := tx.nextTriggerID + 1 }

/-- Embedding of `MessageStore.UpdateWebhookConfig`: inside one
transaction, UPDATE the config row (refreshing `updated_at`), fail with
not-found when `RowsAffected` is 0, DELETE the config's triggers, INSERT
the new ones, then commit.  Returns the published database and the
in-memory config with its triggers' ids filled in, exactly as the Go code
mutates `config.Triggers`. -/
def UpdateWebhookConfig (db : DB) (config : WebhookConfig) (now : String)
    (f : FaultSpec) : Except String (DB × WebhookConfig) :=
  if f.updateFails then .error "failed to update webhook config"
  else
    let touched := db.webhookConfigs.countP (fun r => r.id == config.id)
    let tx1 : DB :=
      { db with webhookConfigs := db.webhookConfigs.map (fun r =>
          if r.id = config.id then
            { r with name := config.name, webhookURL := config.webhookURL,
                     secretToken := config.secretToken,
                     enabled := config.enabled, updatedAt := now }
          else r) }
    if touched = 0 then .error "webhook not found"
    else if f.deleteTriggersFails then .error "failed to delete existing triggers"
    else
      let tx2 : DB :=
        { tx1 with webhookTriggers :=
            tx1.webhookTriggers.filter (fun t => t.webhookConfigID ≠ config.id) }
      match insertTriggersLoop config.id f.insertTriggerFails config.triggers 0 tx2 with
      | .error e => .error e
      | .ok tx3 =>
          if f.commitFails then .error "failed to commit transaction"
          else .ok (tx3,
            { config with triggers :=
                insertedRows tx2.nextTriggerID config.id config.triggers })

/-- Runner for the update seen from the caller: on error the caller's
database handle is unchanged (the transaction was rolled back). -/
def runUpdateWebhookConfig (db : DB) (config : WebhookConfig) (now : String)
    (f : FaultSpec) : DB × Option String :=
  match UpdateWebhookConfig db config now f with
  | .ok (db2, _) => (db2, none)
  | .error e => (db, some e)

structure DeleteFaults where
  deleteLogsFails : Bool
  deleteTriggersFails : Bool
  deleteConfigFails : Bool

def noDeleteFaults : DeleteFaults :=
  { deleteLogsFails := false, deleteTriggersFails := false,
    deleteConfigFails := false }

/-- Embedding of `MessageStore.DeleteWebhookConfig`: a COUNT query checks
existence, then three *separate autocommit* DELETE statements remove the
logs, the triggers and the config row, in that order.  There is no
transaction in the source: a statement that fails leaves the effects of
the earlier statements in place, which the returned intermediate state
makes visible. -/
def DeleteWebhookConfig (db : DB) (id : Nat) (f : DeleteFaults) :
    DB × Option String :=
  let count := db.webhookConfigs.countP (fun r => r.id == id)
  if count = 0 then (db, some "webhook not found")
  else if f.deleteLogsFails then (db, some "failed to delete webhook logs")
  else
    let db1 : DB :=
      { db with webhookLogs := db.webhookLogs.filter (fun l => l.webhookConfigID ≠ id) }
    if f.deleteTriggersFails then (db1, some "failed to delete webhook triggers")
    else
      let db2 : DB :=
        { db1 with webhookTriggers :=
            db1.webhookTriggers.filter (fun t => t.webhookConfigID ≠ id) }
      if f.deleteConfigFails then (db2, some "failed to delete webhook config")
      else
        ({ db2 with webhookConfigs := db2.webhookConfigs.filter (fun r => r.id ≠ id) },
         none)

/-! ## IP model and SSRF validation (internal/webhook/validation.go)

`IP` models `net.IP` values as they come out of `net.LookupIP`: either
four IPv4 bytes or eight 16-bit IPv6 groups.  The predicates transcribe
Go's `IsLoopback`, `IsLinkLocalUnicast`, `IsLinkLocalMulticast` and
`(*net.IPNet).Contains` for each CIDR of the `privateIPBlocks` list
initialised in `init()`; a CIDR mask comparison on a byte is written as
the equivalent range test (for instance mask `/12` on `172.16.0.0`
constrains the second byte to 16–31). -/

inductive IP where
  | v4 (a b c d : Nat)
  | v6 (s0 s1 s2 s3 s4 s5 s6 s7 : Nat)
deriving Repr, DecidableEq

def IP.isLoopback : IP → Bool
  | .v4 a _ _ _ => a = 127
  | .v6 s0 s1 s2 s3 s4 s5 s6 s7 =>
      s0 = 0 && s1 = 0 && s2 = 0 && s3 = 0 && s4 = 0 && s5 = 0 && s6 = 0 && s7 = 1

def IP.isLinkLocalUnicast : IP → Bool
  | .v4 a b _ _ => a = 169 && b = 254
  | .v6 s0 _ _ _ _ _ _ _ => 65152 ≤ s0 && s0 ≤ 65215

def IP.isLinkLocalMulticast : IP → Bool
  | .v4 a b c _ => a = 224 && b = 0 && c = 0
  | .v6 s0 _ _ _ _ _ _ _ => s0 / 256 = 255 && s0 % 256 % 16 = 2

/-- Membership in the `privateIPBlocks` CIDR list built by `init()`. -/
def inPrivateIPBlocks : IP → Bool
  | .v4 a b _ _ =>
      a = 10 ||
      (a = 172 && 16 ≤ b && b ≤ 31) ||
      (a = 192 && b = 168) ||
      a = 127 ||
      (a = 169 && b = 254) ||
      a = 0 ||
      (224 ≤ a && a ≤ 239) ||
      (240 ≤ a && a ≤ 255)
  | .v6 s0 s1 s2 s3 s4 s5 s6 s7 =>
      (s0 = 0 && s1 = 0 && s2 = 0 && s3 = 0 && s4 = 0 && s5 = 0 && s6 = 0 && s7 = 1) ||
      (s0 / 256 = 252 || s0 / 256 = 253) ||
      (65152 ≤ s0 && s0 ≤ 65215)

/-- Embedding of `isPrivateIP`. -/
def isPrivateIP (ip : IP) : Bool :=
  ip.isLoopback || ip.isLinkLocalMulticast || ip.isLinkLocalUnicast ||
    inPrivateIPBlocks ip

/-- The private/reserved ranges as the specification spells them out:
10.0.0.0/8, 172.16.0.0/12, 192.168.0.0/16, 127.0.0.0/8, 169.254.0.0/16,
0.0.0.0/8, 224.0.0.0/4, 240.0.0.0/4, ::1/128, fc00::/7, fe80::/10, or
otherwise loopback/link-local/link-local-multicast.  This definition
follows the spec's words and is compared with the code's `isPrivateIP`. -/
def specPrivateIP : IP → Bool
  | .v4 a b c d =>
      a = 10 || (a = 172 && 16 ≤ b && b ≤ 31) || (a = 192 && b = 168) ||
      a = 127 || (a = 169 && b = 254) || a = 0 ||
      (224 ≤ a && a ≤ 239) || (240 ≤ a && a ≤ 255) ||
      IP.isLoopback (.v4 a b c d) || IP.isLinkLocalUnicast (.v4 a b c d) ||
      IP.isLinkLocalMulticast (.v4 a b c d)
  | .v6 s0 s1 s2 s3 s4 s5 s6 s7 =>
      (s0 = 0 && s1 = 0 && s2 = 0 && s3 = 0 && s4 = 0 && s5 = 0 && s6 = 0 && s7 = 1) ||
      (s0 / 256 = 252 || s0 / 256 = 253) ||
      (65152 ≤ s0 && s0 ≤ 65215) ||
      IP.isLoopback (.v6 s0 s1 s2 s3 s4 s5 s6 s7) ||
      IP.isLinkLocalUnicast (.v6 s0 s1 s2 s3 s4 s5 s6 s7) ||
      IP.isLinkLocalMulticast (.v6 s0 s1 s2 s3 s4 s5 s6 s7)

/-- ASCII lower-casing of one character (models the effect of Go's
unicode case folding on the ASCII strings compared here). -/
def asciiLower (c : Char) : Char :=
  if 65 ≤ c.toNat ∧ c.toNat ≤ 90 then Char.ofNat (c.toNat + 32) else c

/-- Characters of a string, lower-cased. -/
def lowerData (s : String) : List Char := s.data.map asciiLower

/-- Model of `strings.EqualFold` for the ASCII hostnames compared here. -/
def equalFold (s t : String) : Bool := lowerData s == lowerData t

def blockedHosts : List String :=
  ["metadata.google.internal", "169.254.169.254", "metadata.azure.com"]

/-- Embedding of `ValidateWebhookURL`.  `url.Parse` + `u.Hostname()` is
abstracted as `parseHost` (`none` models a parse error), `net.LookupIP`
as `resolve` (`none` models a resolution error), and the
`DISABLE_SSRF_CHECK` environment test as `disableSSRF`. -/
def ValidateWebhookURL (disableSSRF : Bool) (parseHost : String → Option String)
    (resolve : String → Option (List IP)) (webhookURL : String) :
    Except String Unit :=
  if disableSSRF then .ok ()
  else
    match parseHost webhookURL with
    | none => .error "invalid webhook URL"
    | some hostname =>
        if blockedHosts.any (fun b => equalFold hostname b) then
          .error ("webhook URL hostname is blocked: " ++ hostname)
        else
          match resolve hostname with
          | none => .error "failed to resolve webhook URL hostname"
          | some ips =>
              match ips.find? isPrivateIP with
              | some _ => .error "webhook URL resolves to private/reserved IP"
              | none => .ok ()

/-! ## Regex engine model and string matching (internal/webhook/manager.go)

The source calls Go's `regexp` package (`regexp.Compile`,
`regexp.MatchString`), an external library.  It is modelled here with
standard regular-expression semantics via Brzozowski derivatives:
`regexMatchString` performs the unanchored search `MatchString` does
(success if the pattern matches any substring).  `compileRegex` models
`regexp.Compile` for the fragment of patterns the development uses:
sequences of literal characters, each optionally followed by a postfix
`*`; any metacharacter outside that fragment is a compile failure in the
model. -/

inductive Regex where
  | emptyset
  | epsilon
  | char (c : Char)
  | concat (r1 r2 : Regex)
  | alt (r1 r2 : Regex)
  | star (r : Regex)
deriving Repr, DecidableEq

def Regex.nullable : Regex → Bool
  | .emptyset => false
  | .epsilon => true
  | .char _ => false
  | .concat r1 r2 => r1.nullable && r2.nullable
  | .alt r1 r2 => r1.nullable || r2.nullable
  | .star _ => true

def Regex.deriv : Regex → Char → Regex
  | .emptyset, _ => .emptyset
  | .epsilon, _ => .emptyset
  | .char c, a => if a = c then .epsilon else .emptyset
  | .concat r1 r2, a =>
      if r1.nullable then .alt (.concat (r1.deriv a) r2) (r2.deriv a)
      else .concat (r1.deriv a) r2
  | .alt r1 r2, a => .alt (r1.deriv a) (r2.deriv a)
  | .star r, a => .concat (r.deriv a) (.star r)

/-- Does some prefix of the character list match the regex? -/
def matchesSomeStart : Regex → List Char → Bool
  | r, [] => r.nullable
  | r, c :: cs => r.nullable || matchesSomeStart (r.deriv c) cs

/-- Unanchored search over the whole string, as `regexp.MatchString`
performs. -/
def regexSearch : Regex → List Char → Bool
  | r, [] => matchesSomeStart r []
  | r, c :: cs => matchesSomeStart r (c :: cs) || regexSearch r cs

/-- Characters treated as literals by the modelled pattern fragment. -/
def isRegexLiteralChar (c : Char) : Bool :=
  ¬ (c = '*' || c = '.' || c = '(' || c = ')' || c = '[' || c = ']' ||
     c = '+' || c = '?' || c = '{' || c = '}' || c = '|' || c = '\\' ||
     c = '^' || c = '$')

/-- Pattern compiler for the modelled fragment (see the section header). -/
def compileFragment : List Char → Option Regex
  | [] => some .epsilon
  | c :: '*' :: rest =>
      if isRegexLiteralChar c then
        (compileFragment rest).map (fun r => .concat (.star (.char c)) r)
      else none
  | c :: rest =>
      if isRegexLiteralChar c then
        (compileFragment rest).map (fun r => .concat (.char c) r)
      else none

def compileRegex (pattern : String) : Option Regex :=
  compileFragment pattern.data

/-- Model of `regexp.MatchString(pattern, text)`: compile, then search
unanchored; a compile error yields a Go error, which `matchesString`
turns into a non-match. -/
def regexMatchString (pattern text : String) : Option Bool :=
  (compileRegex pattern).map (fun r => regexSearch r text.data)

/-- Substring test on character lists, modelling `strings.Contains`. -/
def containsSub (hay needle : List Char) : Bool :=
  needle.isPrefixOf hay ||
    match hay with
    | [] => false
    | _ :: t => containsSub t needle

/-- Embedding of `Manager.matchesString`: exact is byte equality,
contains is case-insensitive substring (`strings.Contains` over
`strings.ToLower` of both sides), regex is `regexp.MatchString` with a
compile error logged and treated as a non-match; an unknown match type is
a non-match. -/
def matchesString (text pattern matchType : String) : Bool :=
  if matchType = "exact" then text == pattern
  else if matchType = "contains" then
    containsSub (lowerData text) (lowerData pattern)
  else if matchType = "regex" then
    match regexMatchString pattern text with
    | some b => b
    | none => false
  else false

/-- The message fields `matchesTrigger` consults (from
`msg.Info`): the chat JID string, the sender JID string and its bare
user part. -/
structure MsgInfo where
  chat : String
  senderJID : String
  senderUser : String
deriving Repr, DecidableEq

/-- Embedding of `Manager.matchesTrigger`: dispatch on the trigger type;
`content` and `mediaType` are the extracted text and normalized media
kind handed in by the caller; an unknown trigger type is a non-match. -/
def matchesTrigger (trigger : WebhookTrigger) (msg : MsgInfo)
    (content mediaType : String) : Bool :=
  if trigger.triggerType = "all" then true
  else if trigger.triggerType = "chat_jid" then
    matchesString msg.chat trigger.triggerValue trigger.matchType
  else if trigger.triggerType = "sender" then
    matchesString msg.senderJID trigger.triggerValue trigger.matchType ||
      matchesString msg.senderUser trigger.triggerValue trigger.matchType
  else if trigger.triggerType = "keyword" then
    matchesString content trigger.triggerValue trigger.matchType
  else if trigger.triggerType = "media_type" then
    matchesString mediaType trigger.triggerValue trigger.matchType
  else false

/-! ## Config validation and the webhook CRUD handlers -/

def validTriggerTypes : List String :=
  ["all", "chat_jid", "sender", "keyword", "media_type"]

def validMatchTypes : List String := ["exact", "contains", "regex"]

/-- The per-trigger validation loop of `ValidateWebhookConfig`. -/
def validateTriggers : List WebhookTrigger → Except String Unit
  | [] => .ok ()
  | t :: ts =>
      if t.triggerType = "" then .error "trigger type is required"
      else if ¬ validTriggerTypes.contains t.triggerType then
        .error ("invalid trigger type: " ++ t.triggerType)
      else if ¬ validMatchTypes.contains t.matchType then
        .error ("invalid match type: " ++ t.matchType)
      else if t.matchType = "regex" ∧ t.triggerValue ≠ "" then
        match compileRegex t.triggerValue with
        | none => .error ("invalid regex pattern: " ++ t.triggerValue)
        | some _ => validateTriggers ts
      else validateTriggers ts

/-- Embedding of `Manager.ValidateWebhookConfig`: name presence and
length, URL presence, length and scheme, the SSRF check, then the
triggers.  Go's `len` counts bytes, modelled by `String.utf8ByteSize`. -/
def ValidateWebhookConfig (disableSSRF : Bool)
    (parseHost : String → Option String)
    (resolve : String → Option (List IP)) (config : WebhookConfig) :
    Except String Unit :=
  if config.name = "" then .error "webhook name is required"
  else if 255 < config.name.utf8ByteSize then
    .error "webhook name must be less than 256 characters"
  else if config.webhookURL = "" then .error "webhook URL is required"
  else if 2048 < config.webhookURL.utf8ByteSize then
    .error "webhook URL must be less than 2048 characters"
  else if ¬ ("http://".data.isPrefixOf config.webhookURL.data ||
             "https://".data.isPrefixOf config.webhookURL.data) then
    .error "webhook URL must start with http:// or https://"
  else
    match ValidateWebhookURL disableSSRF parseHost resolve config.webhookURL with
    | .error e => .error e
    | .ok _ => validateTriggers config.triggers

/-- Body written by `SendJSONError`. -/
def sendJSONErrorBody (message : String) : Jx :=
  .obj [("success", .bool false), ("error", .str message)]

/-- Embedding of the GET branch of `handleWebhooks`: list all configs,
each converted through `ToResponse` (masked secret). -/
def handleListWebhooks (db : DB) : Nat × Jx :=
  (200, .obj [("success", .bool true),
              ("data", .arr ((GetAllWebhookConfigs db).map
                  (fun c => (c.ToResponse).toJson)))])

/-- Embedding of the POST branch of `handleWebhooks`: validate, store,
then encode the *raw* decoded config (after `StoreWebhookConfig` filled
in its ids) as the `data` field of the response. -/
def handleCreateWebhook (disableSSRF : Bool)
    (parseHost : String → Option String)
    (resolve : String → Option (List IP)) (db : DB)
    (config : WebhookConfig) (now : String) : DB × Nat × Jx :=
  match ValidateWebhookConfig disableSSRF parseHost resolve config with
  | .error e => (db, 400, sendJSONErrorBody e)
  | .ok _ =>
      let (db2, config2) := StoreWebhookConfig db config now
      (db2, 200, .obj [("success", .bool true), ("data", config2.toJson)])

/-- Embedding of the GET method of `handleWebhookByID`: fetch and convert
through `ToResponse` (masked secret); absent id is a 404. -/
def handleGetWebhook (db : DB) (webhookID : Nat) : Nat × Jx :=
  match GetWebhookConfig db webhookID with
  | none => (404, sendJSONErrorBody "Webhook not found")
  | some config =>
      (200, .obj [("success", .bool true), ("data", (config.ToResponse).toJson)])

/-- Embedding of the PUT method of `handleWebhookByID`: force the id from
the URL, validate, update, and answer with `config.ToResponse()` of the
decoded (and id-filled) config. -/
def handleUpdateWebhook (disableSSRF : Bool)
    (parseHost : String → Option String)
    (resolve : String → Option (List IP)) (db : DB) (webhookID : Nat)
    (body : WebhookConfig) (now : String) : DB × Nat × Jx :=
  let config := { body with id := webhookID }
  match ValidateWebhookConfig disableSSRF parseHost resolve config with
  | .error e => (db, 400, sendJSONErrorBody e)
  | .ok _ =>
      match UpdateWebhookConfig db config now noFaults with
      | .error e => (db, 500, sendJSONErrorBody ("Failed to update webhook config: " ++ e))
      | .ok (db2, config2) =>
          (db2, 200, .obj [("success", .bool true),
                           ("data", (config2.ToResponse).toJson)])

/-- Embedding of the `/enable` branch of `handleWebhookByID`: read the
stored config, flip `Enabled`, update, and answer with the *raw* config
(no `ToResponse`) as the `data` field. -/
def handleEnableWebhook (db : DB) (webhookID : Nat) (enabled : Bool)
    (now : String) : DB × Nat × Jx :=
  match GetWebhookConfig db webhookID with
  | none => (db, 404, sendJSONErrorBody "Webhook not found")
  | some config =>
      let config := { config with enabled := enabled }
      match UpdateWebhookConfig db config now noFaults with
      | .error e => (db, 500, sendJSONErrorBody ("Failed to update webhook config: " ++ e))
      | .ok (db2, config2) =>
          (db2, 200, .obj [("success", .bool true),
            ("message", .str (if enabled then "Webhook enabled successfully"
                              else "Webhook disabled successfully")),
            ("data", config2.toJson)])

/-! ## Delivery with retry (internal/webhook/delivery.go)

The HTTP transport is abstracted as a function from the attempt number
(1-based) to an outcome: `netError` models a request-build or transport
error (`sendHTTPRequest` then returns success=false, status 0 and the
error text's bytes), `response` models a reply with its status and full
body bytes.  `json.Marshal` of the payload with the attempt stamped into
`metadata.delivery_attempt` is abstracted as `marshal : Nat → String`;
`time.Now()` at attempt `k` as `nowAt k` (for `delivered_at`) and
`tsAt k` (for the row's `created_at`).  `time.Sleep` calls are collected
in a list of slept durations (in seconds). -/

inductive HTTPOutcome where
  | netError (errBytes : List Nat)
  | response (status : Int) (body : List Nat)
deriving Repr, DecidableEq

/-- Embedding of `DeliveryService.sendHTTPRequest`: on transport error,
(false, 0, error text); otherwise read the body into a 1024-byte buffer
(the read is modelled as returning `min 1024 (length body)` bytes) and
report success exactly when the status lies in [200, 300). -/
def sendHTTPRequest (outcome : HTTPOutcome) : Bool × Int × List Nat :=
  match outcome with
  | .netError errBytes => (false, 0, errBytes)
  | .response status body =>
      (decide (200 ≤ status) && decide (status < 300), status, body.take 1024)

def backoffIntervals : List Nat := [1, 2, 4, 8, 16]

/-- The retry loop body of `DeliverWebhook`, with the remaining loop
iterations as structural fuel (`DeliverWebhook` starts it with attempt 1
and fuel 5, matching `for attempt := 1; attempt <= maxRetries`).  Each
iteration sends, builds a `WebhookLog` with `delivered_at` stamped only
on success, persists it via `StoreWebhookLog`, stops on success, and
otherwise sleeps `backoffIntervals[attempt-1]` before the next attempt
(except after the last). -/
def deliverLoop (http : Nat → HTTPOutcome) (nowAt : Nat → Int)
    (tsAt : Nat → String) (cfgID : Nat) (messageID chatJID : String)
    (trigger : WebhookTrigger) (marshal : Nat → String) :
    Nat → Nat → DB → DB × List Nat
  | _, 0, db => (db, [])
  | attempt, fuel + 1, db =>
      let r := sendHTTPRequest (http attempt)
      let log : LogRow :=
        { id := 0, webhookConfigID := cfgID, messageID := messageID,
          chatJID := chatJID, triggerType := trigger.triggerType,
          triggerValue := trigger.triggerValue, payload := marshal attempt,
          responseStatus := r.2.1, responseBody := r.2.2,
          attemptCount := attempt,
          deliveredAt := if r.1 then some (nowAt attempt) else none,
          createdAt := tsAt attempt }
      let db2 := StoreWebhookLog db log
      if r.1 then (db2, [])
      else if attempt < 5 then
        let rest := deliverLoop http nowAt tsAt cfgID messageID chatJID
          trigger marshal (attempt + 1) fuel db2
        (rest.1, backoffIntervals.getD (attempt - 1) 0 :: rest.2)
      else (db2, [])

/-- Embedding of `DeliveryService.DeliverWebhook`: an initial
`json.Marshal` failure (modelled by `marshalOk = false`) aborts before
any attempt; otherwise run up to `maxRetries = 5` attempts. -/
def DeliverWebhook (http : Nat → HTTPOutcome) (nowAt : Nat → Int)
    (tsAt : Nat → String) (db : DB) (config : WebhookConfig)
    (marshalOk : Bool) (marshal : Nat → String)
    (messageID chatJID : String) (trigger : WebhookTrigger) : DB × List Nat :=
  if marshalOk then
    deliverLoop http nowAt tsAt config.id messageID chatJID trigger marshal 1 5 db
  else (db, [])

/-- Success of the attempt `k` outcome, as `sendHTTPRequest` reports it. -/
def httpSuccess (http : Nat → HTTPOutcome) (k : Nat) : Bool :=
  (sendHTTPRequest (http k)).1

/-- Number of attempts the loop makes: the first successful attempt, or
all 5 when none succeeds. -/
def attemptsMade (http : Nat → HTTPOutcome) : Nat :=
  if httpSuccess http 1 then 1
  else if httpSuccess http 2 then 2
  else if httpSuccess http 3 then 3
  else if httpSuccess http 4 then 4
  else 5

/-- The log row the loop persists for the `i`-th attempt (zero-based
index, so the attempt number is `i + 1`), as stored: its id is assigned
from the AUTOINCREMENT counter `baseID + i`. -/
def expectedLog (http : Nat → HTTPOutcome) (nowAt : Nat → Int)
    (tsAt : Nat → String) (cfgID : Nat) (messageID chatJID : String)
    (trigger : WebhookTrigger) (marshal : Nat → String) (baseID i : Nat) :
    LogRow :=
  let k := i + 1
  let r := sendHTTPRequest (http k)
  { id := baseID + i, webhookConfigID := cfgID, messageID := messageID,
    chatJID := chatJID, triggerType := trigger.triggerType,
    triggerValue := trigger.triggerValue, payload := marshal k,
    responseStatus := r.2.1, responseBody := r.2.2, attemptCount := k,
    deliveredAt := if r.1 then some (nowAt k) else none, createdAt := tsAt k }

/-! ## Media-path guard (internal/whatsapp/messages.go)

`filepath.Clean` and `filepath.Abs` are modelled lexically on
slash-separated paths: split on `/`, drop empty and `.` segments, resolve
`..` against the accumulated prefix (elided at the root for rooted paths,
kept at the front for relative ones), and rejoin; `Abs` of a relative
path joins it to the working directory first.  `filepath.Abs` only fails
when the working directory cannot be read, which the model omits. -/

/-- Split a character list on the path separator, as `strings.Split`
does (consecutive separators give empty segments). -/
def splitSlashAux : List Char → List Char → List (List Char)
  | cur, [] => [cur.reverse]
  | cur, c :: rest =>
      if c = '/' then cur.reverse :: splitSlashAux [] rest
      else splitSlashAux (c :: cur) rest

def splitSlash (l : List Char) : List (List Char) := splitSlashAux [] l

/-- Join path segments with the separator. -/
def joinSlash : List (List Char) → List Char
  | [] => []
  | [s] => s
  | s :: rest => s ++ '/' :: joinSlash rest

def isRooted : List Char → Bool
  | c :: _ => c = '/'
  | [] => false

def cleanSegs (rooted : Bool) : List (List Char) → List (List Char) → List (List Char)
  | acc, [] => acc
  | acc, s :: rest =>
      if s = [] ∨ s = ['.'] then cleanSegs rooted acc rest
      else if s = ['.', '.'] then
        match acc.getLast? with
        | some last =>
            if last = ['.', '.'] then cleanSegs rooted (acc ++ [['.', '.']]) rest
            else cleanSegs rooted acc.dropLast rest
        | none =>
            if rooted then cleanSegs rooted acc rest
            else cleanSegs rooted (acc ++ [['.', '.']]) rest
      else cleanSegs rooted (acc ++ [s]) rest

def goClean (path : String) : String :=
  if path.data = [] then "."
  else
    let rooted := isRooted path.data
    let out := cleanSegs rooted [] (splitSlash path.data)
    if rooted then String.mk ('/' :: joinSlash out)
    else if out = [] then "." else String.mk (joinSlash out)

/-- Model of `filepath.Abs` relative to working directory `cwd`. -/
def goAbs (cwd path : String) : String :=
  if isRooted path.data then goClean path
  else goClean (cwd ++ "/" ++ path)

def allowedMediaDirs : List String := ["/app/media", "/app/store", "/tmp"]

/-- Embedding of `validateMediaPath`: empty paths pass; the raw path must
not contain `..` anywhere; with `DISABLE_PATH_CHECK` set the allow-list
is skipped; otherwise the canonical absolute path must have one of the
allow-listed roots as a *string* prefix (`strings.HasPrefix`). -/
def validateMediaPath (disablePathCheck : Bool) (cwd : String)
    (mediaPath : String) : Except String Unit :=
  if mediaPath = "" then .ok ()
  else
    let cleanPath := goClean mediaPath
    let absPath := goAbs cwd cleanPath
    if containsSub mediaPath.data ['.', '.'] then
      .error "path traversal not allowed"
    else if disablePathCheck then .ok ()
    else if allowedMediaDirs.any
        (fun d => (goAbs cwd d).data.isPrefixOf absPath.data) then
      .ok ()
    else .error "media path outside allowed directories"

/-- Being inside a directory, properly: equal to the root or below it
with a path-separator boundary.  This is the sound notion the prefix test
is compared against. -/
def isWithinDir (root p : String) : Bool :=
  p == root || (root ++ "/").data.isPrefixOf p.data

/-- Last-activity time recorded for a chat address, read off the store. -/
def chatLastTime (db : DB) (jid : String) : Option Int :=
  (db.chats.find? (fun r => r.jid == jid)).map (fun r => r.lastMessageTime)

/-! ## Theorems -/

/-- Claim C8: the response body of each webhook delivery attempt is
stored truncated to 1024 bytes; in particular a 2048-byte upstream body
is persisted with length exactly 1024. -/
theorem C8_response_truncated_to_1024 (status : Int) (body : List Nat)
    (h : body.length = 2048) :
    (sendHTTPRequest (.response status body)).2.2 = body.take 1024 ∧
    (sendHTTPRequest (.response status body)).2.2.length = 1024 := by
  refine ⟨rfl, ?_⟩
  simp only [sendHTTPRequest]
  rw [List.length_take, h]
  omega

/-- Witness for C8 at a concrete 2048-byte body. -/
theorem C8_witness :
    (List.replicate 2048 (7 : Nat)).length = 2048 ∧
    (sendHTTPRequest (.response 204 (List.replicate 2048 (7 : Nat)))).2.2.length = 1024 := by
  refine ⟨by rw [List.length_replicate],
    (C8_response_truncated_to_1024 204 _ (by rw [List.length_replicate])).2⟩

/-- Claim C10: the media-path allow-list check is a plain string-prefix
test on the canonicalized path: the path /tmpfoo/x contains no "..",
lies outside every allow-listed root, yet is accepted by
validateMediaPath with the path check enabled. -/
theorem C10_allowlist_is_string_match :
    validateMediaPath false "/work" "/tmpfoo/x" = .ok () ∧
    containsSub "/tmpfoo/x".data ['.', '.'] = false ∧
    allowedMediaDirs.all (fun d => !(isWithinDir d "/tmpfoo/x")) = true := by
  exact ⟨rfl, rfl, rfl⟩

/-- Sequence refuting claim C9: a chat stored at time 100, then stored
again at time 50. -/
def c9dbA : DB := StoreChat DB.empty "111@s.whatsapp.net" "Alice" 100

/-- Second step of the C9 sequence. -/
def c9dbB : DB := StoreChat c9dbA "111@s.whatsapp.net" "Alice" 50

/-- Counterexample to claim C9 as stated: storing a chat with an older
message timestamp moves last_activity_time backward (100, then 50). -/
theorem C9_counterexample :
    chatLastTime c9dbA "111@s.whatsapp.net" = some 100 ∧
    chatLastTime c9dbB "111@s.whatsapp.net" = some 50 ∧ (50 : Int) < 100 := by
  exact ⟨rfl, rfl, by norm_num⟩

/-- Claim C9 amended: StoreChat is last-write-wins — after any store-chat
operation the recorded last_activity_time equals the timestamp supplied
by that operation (so a later store with an older timestamp moves it
backward). -/
theorem C9_last_write_wins (db : DB) (jid name : String) (t : Int) :
    chatLastTime (StoreChat db jid name t) jid = some t := by
  simp [chatLastTime, StoreChat, List.find?]

/-! ### C6: message upsert -/

/-- Argument bundle for `StoreMessage`, used to keep the statements about
repeated stores readable. -/
structure MsgArgs where
  id : String
  chatJID : String
  sender : String
  senderName : String
  content : String
  timestamp : Int
  isFromMe : Bool
  mediaType : String
  filename : String
  url : String
  mediaKey : List Nat
  fileSHA256 : List Nat
  fileEncSHA256 : List Nat
  fileLength : Nat
deriving Repr, DecidableEq

/-- `StoreMessage` applied to a bundled argument record. -/
def storeMessageA (db : DB) (m : MsgArgs) : DB :=
  StoreMessage db m.id m.chatJID m.sender m.senderName m.content m.timestamp
    m.isFromMe m.mediaType m.filename m.url m.mediaKey m.fileSHA256
    m.fileEncSHA256 m.fileLength

/-- The row a (non-dropped) `StoreMessage` call writes. -/
def msgRow (m : MsgArgs) : MessageRow :=
  ⟨m.id, m.chatJID, m.sender,
   if m.senderName = "" then m.sender else m.senderName,
   m.content, m.timestamp, m.isFromMe, m.mediaType, m.filename, m.url,
   m.mediaKey, m.fileSHA256, m.fileEncSHA256, m.fileLength⟩

/-- Identity key of the messages table: `(id, chat_jid)`. -/
def msgKey (id chatJID : String) (r : MessageRow) : Bool :=
  r.id == id && r.chatJID == chatJID

theorem storeMessageA_messages (db : DB) (m : MsgArgs)
    (h : ¬(m.content = "" ∧ m.mediaType = "")) :
    (storeMessageA db m).messages =
      msgRow m :: db.messages.filter (fun r => !(msgKey m.id m.chatJID r)) := by
  simp only [storeMessageA, StoreMessage, if_neg h, msgRow, msgKey]
  congr 1
  · exact List.filter_congr (fun r _ => by
      by_cases h1 : r.id = m.id <;> by_cases h2 : r.chatJID = m.chatJID <;>
        simp [h1, h2])

theorem filter_key_filter_not (id cj : String) (l : List MessageRow) :
    (l.filter (fun r => !(msgKey id cj r))).filter (msgKey id cj) = [] := by
  induction l with
  | nil => rfl
  | cons a t ih =>
      by_cases h : msgKey id cj a = true
      · simp only [List.filter, h, Bool.not_true]
        exact ih
      · simp only [Bool.not_eq_true] at h
        simp only [List.filter, h, Bool.not_false]
        exact ih

/-- Counterexample to claim C6 as stated: for a message with empty text
and no media, two `store_message` calls with identical `(id, chat_jid)`
leave zero rows for that key, not exactly one (the write is dropped). -/
theorem C6_counterexample :
    ((StoreMessage
        (StoreMessage DB.empty "id1" "111@s.whatsapp.net" "222" "Bob" "" 10
          false "" "" "" [] [] [] 0)
        "id1" "111@s.whatsapp.net" "222" "Bob" "" 10 false "" "" "" [] [] [] 0).messages.countP
      (msgKey "id1" "111@s.whatsapp.net")) = 0 := rfl

/-- Claim C6 amended: for messages that carry text or media (the ones the
store accepts), insertion is an idempotent upsert keyed by
`(id, chat_jid)` — two stores under the same key leave exactly the one
row of the last write, and a third store of the same id under a different
chat_jid coexists with it. -/
theorem C6_upsert_keyed (db : DB) (m1 m2 m3 : MsgArgs)
    (_hkey : m1.id = m2.id ∧ m1.chatJID = m2.chatJID)
    (h2 : ¬(m2.content = "" ∧ m2.mediaType = ""))
    (hk3 : m3.id = m2.id) (hne : m3.chatJID ≠ m2.chatJID)
    (h3 : ¬(m3.content = "" ∧ m3.mediaType = "")) :
    ((storeMessageA (storeMessageA db m1) m2).messages.filter
        (msgKey m2.id m2.chatJID) = [msgRow m2]) ∧
    ((storeMessageA (storeMessageA (storeMessageA db m1) m2) m3).messages.filter
        (msgKey m2.id m2.chatJID) = [msgRow m2]) ∧
    ((storeMessageA (storeMessageA (storeMessageA db m1) m2) m3).messages.filter
        (msgKey m3.id m3.chatJID) = [msgRow m3]) := by
  have hrow2 : msgKey m2.id m2.chatJID (msgRow m2) = true := by
    simp [msgKey, msgRow]
  have hrow3ne : msgKey m2.id m2.chatJID (msgRow m3) = false := by
    simp [msgKey, msgRow, hk3, hne]
  have e2 : (storeMessageA (storeMessageA db m1) m2).messages =
      msgRow m2 :: ((storeMessageA db m1).messages.filter
        (fun r => !(msgKey m2.id m2.chatJID r))) :=
    storeMessageA_messages _ m2 h2
  have e2' : (storeMessageA (storeMessageA db m1) m2).messages.filter
      (msgKey m2.id m2.chatJID) = [msgRow m2] := by
    rw [e2]
    simp only [List.filter, hrow2, filter_key_filter_not]
  have e3 : (storeMessageA (storeMessageA (storeMessageA db m1) m2) m3).messages =
      msgRow m3 :: ((storeMessageA (storeMessageA db m1) m2).messages.filter
        (fun r => !(msgKey m3.id m3.chatJID r))) :=
    storeMessageA_messages _ m3 h3
  refine ⟨e2', ?_, ?_⟩
  · rw [e3]
    simp only [List.filter, hrow3ne]
    have hcomm : ((storeMessageA (storeMessageA db m1) m2).messages.filter
        (fun r => !(msgKey m3.id m3.chatJID r))).filter (msgKey m2.id m2.chatJID) =
        ((storeMessageA (storeMessageA db m1) m2).messages.filter
          (msgKey m2.id m2.chatJID)).filter (fun r => !(msgKey m3.id m3.chatJID r)) := by
      rw [List.filter_filter, List.filter_filter]
      exact List.filter_congr (fun r _ => by
        by_cases ha : msgKey m2.id m2.chatJID r = true <;>
          by_cases hb : msgKey m3.id m3.chatJID r = true <;> simp [ha, hb])
    rw [hcomm, e2']
    have : msgKey m3.id m3.chatJID (msgRow m2) = false := by
      simp [msgKey, msgRow, hk3, Ne.symm hne]
    simp [List.filter, this]
  · rw [e3]
    simp only [List.filter, show msgKey m3.id m3.chatJID (msgRow m3) = true by
      simp [msgKey, msgRow], filter_key_filter_not]

/-- First write of the C6 witness scenario. -/
def m6a : MsgArgs := ⟨"A", "c1", "s", "old", "v1", 1, false, "", "", "", [], [], [], 0⟩

/-- Second write (same key, new attributes) of the C6 witness scenario. -/
def m6b : MsgArgs := ⟨"A", "c1", "s", "", "hi", 1, false, "", "", "", [], [], [], 0⟩

/-- Third write (same id, other chat) of the C6 witness scenario. -/
def m6c : MsgArgs := ⟨"A", "c2", "s", "", "x", 2, false, "", "", "", [], [], [], 0⟩

/-- Witness for C6 at concrete messages. -/
theorem C6_witness :
    (m6a.id = m6b.id ∧ m6a.chatJID = m6b.chatJID) ∧
    ¬(m6b.content = "" ∧ m6b.mediaType = "") ∧
    (m6c.id = m6b.id ∧ m6c.chatJID ≠ m6b.chatJID) ∧
    ¬(m6c.content = "" ∧ m6c.mediaType = "") ∧
    ((storeMessageA (storeMessageA DB.empty m6a) m6b).messages.filter
      (msgKey m6b.id m6b.chatJID) = [msgRow m6b]) := by
  refine ⟨⟨rfl, rfl⟩, by decide, ⟨rfl, by decide⟩, by decide, ?_⟩
  exact (C6_upsert_keyed DB.empty m6a m6b m6c ⟨rfl, rfl⟩ (by decide) rfl
    (by decide) (by decide)).1

/-! ### C7: keyword triggers against empty message text -/

/-- Counterexample to claim C7 as stated: an enabled keyword trigger with
match type `regex` matches an empty message text — with the empty pattern
and also with the non-empty pattern `a*` — although the claim allows an
empty text to match only through exact or contains with an empty value. -/
theorem C7_counterexample :
    matchesTrigger ⟨1, 1, "keyword", "", "regex", true⟩
      ⟨"111@s.whatsapp.net", "222@s.whatsapp.net", "222"⟩ "" "" = true ∧
    matchesTrigger ⟨2, 1, "keyword", "a*", "regex", true⟩
      ⟨"111@s.whatsapp.net", "222@s.whatsapp.net", "222"⟩ "" "" = true ∧
    ("a*" : String) ≠ "" ∧ ¬(("regex" : String) = "exact" ∨ ("regex" : String) = "contains") := by
  exact ⟨rfl, rfl, by decide, by decide⟩

/-- Claim C7 amended: a keyword trigger compares against the message
text; an empty text matches under exact or contains exactly when the
trigger value is empty, while under regex it matches exactly when the
compiled pattern accepts the empty string — which non-empty patterns
such as `a*` do. -/
theorem C7_empty_text_matching (t : WebhookTrigger) (msg : MsgInfo)
    (mediaType v : String) (ht : t.triggerType = "keyword") :
    (matchesTrigger t msg "" mediaType =
      matchesString "" t.triggerValue t.matchType) ∧
    (matchesString "" v "exact" = true ↔ v = "") ∧
    (matchesString "" v "contains" = true ↔ v = "") ∧
    (matchesString "" v "regex" =
      ((compileRegex v).map Regex.nullable).getD false) := by
  refine ⟨?_, ?_, ?_, ?_⟩
  · simp only [matchesTrigger, ht]
    rfl
  · simp only [matchesString]
    rw [if_pos trivial]
    simp only [beq_iff_eq]
    exact eq_comm
  · simp only [matchesString]
    rw [if_pos trivial]
    show containsSub [] (lowerData v) = true ↔ v = ""
    cases hv : v.data with
    | nil =>
        have : v = "" := by
          cases v with
          | mk d => simp_all
        simp [this, containsSub, lowerData, List.isPrefixOf]
    | cons c cs =>
        have hne : ¬ v = "" := by
          intro h
          rw [h] at hv
          exact List.noConfusion hv
        simp only [hne, iff_false]
        simp [containsSub, lowerData, hv, List.isPrefixOf]
  · simp only [matchesString]
    rw [if_pos trivial]
    cases hc : compileRegex v with
    | none => simp [regexMatchString, hc]
    | some r =>
        simp only [regexMatchString, hc, Option.map_some, Option.getD_some]
        show regexSearch r "".data = r.nullable
        rfl

/-- Witness for C7 at a concrete keyword trigger and value. -/
theorem C7_witness :
    ((⟨1, 1, "keyword", "urgent", "contains", true⟩ : WebhookTrigger).triggerType
        = "keyword") ∧
    (matchesTrigger ⟨1, 1, "keyword", "urgent", "contains", true⟩
        ⟨"c", "s", "u"⟩ "" "" =
      matchesString "" "urgent" "contains") ∧
    (matchesString "" "a*" "exact" = true ↔ ("a*" : String) = "") ∧
    (matchesString "" "a*" "contains" = true ↔ ("a*" : String) = "") ∧
    (matchesString "" "a*" "regex" =
      ((compileRegex "a*").map Regex.nullable).getD false) := by
  have h := C7_empty_text_matching ⟨1, 1, "keyword", "urgent", "contains", true⟩
    ⟨"c", "s", "u"⟩ "" "a*" rfl
  exact ⟨rfl, h.1, h.2.1, h.2.2.1, h.2.2.2⟩

/-! ### C2: SSRF validation -/

set_option maxHeartbeats 2000000 in
/-- Every address in the spec's range list is caught by the code's
`isPrivateIP`. -/
theorem specPrivateIP_imp_isPrivateIP (ip : IP) (h : specPrivateIP ip = true) :
    isPrivateIP ip = true := by
  cases ip with
  | v4 a b c d =>
      simp only [specPrivateIP, isPrivateIP, inPrivateIPBlocks, IP.isLoopback,
        IP.isLinkLocalUnicast, IP.isLinkLocalMulticast, Bool.or_eq_true,
        Bool.and_eq_true, decide_eq_true_eq] at h ⊢
      omega
  | v6 s0 s1 s2 s3 s4 s5 s6 s7 =>
      simp only [specPrivateIP, isPrivateIP, inPrivateIPBlocks, IP.isLoopback,
        IP.isLinkLocalUnicast, IP.isLinkLocalMulticast, Bool.or_eq_true,
        Bool.and_eq_true, decide_eq_true_eq] at h ⊢
      omega

/-- Claim C2: with the SSRF bypass unset, webhook URL validation fails
whenever the URL's host either fails DNS resolution or has any resolved
address inside the spec's private/reserved ranges (in particular a host
resolving to both a public and a private address), and in that case
neither the create nor the update handler writes anything: the database
is returned unchanged with a 400 validation error. -/
theorem C2_ssrf_rejects_private (parseHost : String → Option String)
    (resolve : String → Option (List IP)) (db : DB) (config : WebhookConfig)
    (webhookID : Nat) (now host : String)
    (hhost : parseHost config.webhookURL = some host)
    (hbad : resolve host = none ∨
      ∃ ips ip, resolve host = some ips ∧ ip ∈ ips ∧ specPrivateIP ip = true) :
    (∃ e, ValidateWebhookURL false parseHost resolve config.webhookURL = .error e) ∧
    (handleCreateWebhook false parseHost resolve db config now).1 = db ∧
    (handleCreateWebhook false parseHost resolve db config now).2.1 = 400 ∧
    (handleUpdateWebhook false parseHost resolve db webhookID config now).1 = db ∧
    (handleUpdateWebhook false parseHost resolve db webhookID config now).2.1 = 400 := by
  have hurl : ∃ e, ValidateWebhookURL false parseHost resolve config.webhookURL
      = .error e := by
    unfold ValidateWebhookURL
    simp only [Bool.false_eq_true, if_false, hhost]
    by_cases hb : blockedHosts.any (fun b => equalFold host b) = true
    · rw [if_pos hb]
      exact ⟨_, rfl⟩
    · rw [if_neg hb]
      rcases hbad with hnone | ⟨ips, ip, hips, hmem, hsp⟩
      · rw [hnone]
        exact ⟨_, rfl⟩
      · have hfind : (ips.find? isPrivateIP).isSome :=
          List.find?_isSome.mpr ⟨ip, hmem, specPrivateIP_imp_isPrivateIP ip hsp⟩
        obtain ⟨y, hy⟩ := Option.isSome_iff_exists.mp hfind
        simp only [hips, hy]
        exact ⟨_, rfl⟩
  have hvc : ∀ cfg : WebhookConfig, cfg.webhookURL = config.webhookURL →
      ∃ e, ValidateWebhookConfig false parseHost resolve cfg = .error e := by
    intro cfg hw
    obtain ⟨e0, he0⟩ := hurl
    unfold ValidateWebhookConfig
    split_ifs <;>
      first
        | exact ⟨_, rfl⟩
        | (rw [hw, he0]; exact ⟨_, rfl⟩)
  obtain ⟨e1, he1⟩ := hvc config rfl
  obtain ⟨e2, he2⟩ := hvc { config with id := webhookID } rfl
  refine ⟨hurl, ?_, ?_, ?_, ?_⟩
  · simp [handleCreateWebhook, he1]
  · simp [handleCreateWebhook, he1]
  · simp [handleUpdateWebhook, he2]
  · simp [handleUpdateWebhook, he2]

/-- Host of the C2 witness: resolves to one public and one private
address. -/
def w2parseHost : String → Option String := fun _ => some "mixed.example.com"

/-- Resolver of the C2 witness. -/
def w2resolve : String → Option (List IP) := fun h =>
  if h = "mixed.example.com" then some [IP.v4 93 184 216 34, IP.v4 10 0 0 5]
  else none

/-- Config of the C2 witness. -/
def w2config : WebhookConfig :=
  ⟨0, "hook", "https://mixed.example.com/x", "", true, "", "", []⟩

/-- Witness for C2 at a host resolving to a public and a private
address. -/
theorem C2_witness :
    (w2parseHost w2config.webhookURL = some "mixed.example.com") ∧
    (w2resolve "mixed.example.com" =
        some [IP.v4 93 184 216 34, IP.v4 10 0 0 5] ∧
      IP.v4 10 0 0 5 ∈ [IP.v4 93 184 216 34, IP.v4 10 0 0 5] ∧
      specPrivateIP (IP.v4 10 0 0 5) = true) ∧
    (∃ e, ValidateWebhookURL false w2parseHost w2resolve w2config.webhookURL
        = .error e) ∧
    (handleCreateWebhook false w2parseHost w2resolve DB.empty w2config "t").1
        = DB.empty ∧
    (handleCreateWebhook false w2parseHost w2resolve DB.empty w2config "t").2.1
        = 400 ∧
    (handleUpdateWebhook false w2parseHost w2resolve DB.empty 1 w2config "t").1
        = DB.empty ∧
    (handleUpdateWebhook false w2parseHost w2resolve DB.empty 1 w2config "t").2.1
        = 400 := by
  have h := C2_ssrf_rejects_private w2parseHost w2resolve DB.empty w2config 1 "t"
    "mixed.example.com" rfl
    (Or.inr ⟨[IP.v4 93 184 216 34, IP.v4 10 0 0 5], IP.v4 10 0 0 5, rfl,
      by decide, by decide⟩)
  exact ⟨rfl, ⟨rfl, by decide, by decide⟩, h.1, h.2.1, h.2.2.1, h.2.2.2.1,
    h.2.2.2.2⟩

/-! ### C1: secrets in the webhook CRUD responses -/

/-- A string `s` collides with none of the serialized text fields of a
trigger. -/
def secretSafeTriggerB (s : String) (t : WebhookTrigger) : Bool :=
  s != t.triggerType && s != t.triggerValue && s != t.matchType

/-- A string `s` collides with none of the non-secret serialized text
fields of a stored config row (nor with the masked hint of its secret). -/
def secretSafeRowB (s : String) (r : ConfigRow) : Bool :=
  s != r.name && s != r.webhookURL && s != MaskSecret r.secretToken &&
    s != r.createdAt && s != r.updatedAt

/-- A string `s` collides with none of the non-secret serialized text
fields of a config value (nor with the masked hint of its secret). -/
def secretSafeConfigB (s : String) (c : WebhookConfig) : Bool :=
  s != c.name && s != c.webhookURL && s != MaskSecret c.secretToken &&
    s != c.createdAt && s != c.updatedAt &&
    c.triggers.all (secretSafeTriggerB s)

/-- The string values a trigger list contributes to a response. -/
def triggerStrs : List WebhookTrigger → List String
  | [] => []
  | t :: ts => t.triggerType :: t.triggerValue :: t.matchType :: triggerStrs ts

theorem strValsList_triggers (ts : List WebhookTrigger) :
    strValsList (ts.map WebhookTrigger.toJson) = triggerStrs ts := by
  induction ts with
  | nil => rfl
  | cons t ts ih =>
      simp only [List.map, strValsList, triggerStrs]
      rw [show (WebhookTrigger.toJson t).strVals =
        [t.triggerType, t.triggerValue, t.matchType] from rfl, ih]
      rfl

theorem not_mem_triggerStrs (s : String) (ts : List WebhookTrigger)
    (h : ts.all (secretSafeTriggerB s) = true) : s ∉ triggerStrs ts := by
  induction ts with
  | nil => simp [triggerStrs]
  | cons t ts ih =>
      simp only [List.all_cons, Bool.and_eq_true, secretSafeTriggerB,
        bne_iff_ne, ne_eq] at h
      simp only [triggerStrs, List.mem_cons]
      push_neg
      exact ⟨fun e => h.1.1.1 e, fun e => h.1.1.2 e, fun e => h.1.2 e,
        ih h.2⟩

theorem strValsFields_append (l1 l2 : List (String × Jx)) :
    strValsFields (l1 ++ l2) = strValsFields l1 ++ strValsFields l2 := by
  induction l1 with
  | nil => rfl
  | cons f fs ih =>
      cases f with
      | mk k j => simp [strValsFields, ih]

/-- The strings of a masked response: its non-secret text fields, the
hint when present, and the trigger fields — never the secret token. -/
theorem strVals_maskedJson (r : WebhookConfigResponse) :
    (r.toJson).strVals =
      r.name :: r.webhookURL ::
        ((if r.secretHint = "" then [] else [r.secretHint]) ++
          (r.createdAt :: r.updatedAt :: triggerStrs r.triggers)) := by
  by_cases hh : r.secretHint = "" <;>
    simp [WebhookConfigResponse.toJson, Jx.strVals, strValsFields,
      strValsFields_append, hh, strValsList_triggers]

theorem not_mem_strVals_masked (s : String) (c : WebhookConfig)
    (h : secretSafeConfigB s c = true) :
    s ∉ ((c.ToResponse).toJson).strVals := by
  simp only [secretSafeConfigB, Bool.and_eq_true, bne_iff_ne, ne_eq] at h
  obtain ⟨⟨⟨⟨⟨hn, hu⟩, hm⟩, hc⟩, hup⟩, ht⟩ := h
  rw [strVals_maskedJson]
  simp only [WebhookConfig.ToResponse, List.mem_cons, List.mem_append]
  push_neg
  refine ⟨fun e => hn e, fun e => hu e, ?_, fun e => hc e, fun e => hup e,
    not_mem_triggerStrs s c.triggers ht⟩
  by_cases hhint : MaskSecret c.secretToken = "" <;> simp [hhint]
  exact fun e => hm e

theorem not_mem_strValsList_masked (s : String) (cs : List WebhookConfig)
    (h : cs.all (secretSafeConfigB s) = true) :
    s ∉ strValsList (cs.map (fun c => (c.ToResponse).toJson)) := by
  induction cs with
  | nil => simp [strValsList]
  | cons c cs ih =>
      simp only [List.all_cons, Bool.and_eq_true] at h
      simp only [List.map, strValsList, List.mem_append]
      push_neg
      exact ⟨not_mem_strVals_masked s c h.1, ih h.2⟩

/-- Configs assembled from safe database rows are safe. -/
theorem assembled_configs_safe (s : String) (db : DB)
    (h1 : db.webhookConfigs.all (secretSafeRowB s) = true)
    (h2 : db.webhookTriggers.all (secretSafeTriggerB s) = true) :
    (GetAllWebhookConfigs db).all (secretSafeConfigB s) = true := by
  rw [List.all_eq_true] at h1 h2 ⊢
  intro c hc
  rw [GetAllWebhookConfigs, List.mem_map] at hc
  obtain ⟨r, hr, rfl⟩ := hc
  have hrow := h1 r hr
  simp only [secretSafeRowB, Bool.and_eq_true] at hrow
  simp only [secretSafeConfigB, Bool.and_eq_true]
  refine ⟨⟨⟨⟨⟨hrow.1.1.1.1, hrow.1.1.1.2⟩, hrow.1.1.2⟩, hrow.1.2⟩, hrow.2⟩, ?_⟩
  rw [List.all_eq_true]
  intro t htmem
  exact h2 t (List.mem_of_mem_filter htmem)

/-- A config read back through `GetWebhookConfig` from safe rows is
safe. -/
theorem got_config_safe (s : String) (db : DB) (id : Nat) (c : WebhookConfig)
    (h1 : db.webhookConfigs.all (secretSafeRowB s) = true)
    (h2 : db.webhookTriggers.all (secretSafeTriggerB s) = true)
    (hc : GetWebhookConfig db id = some c) :
    secretSafeConfigB s c = true := by
  rw [GetWebhookConfig] at hc
  cases hf : db.webhookConfigs.find? (fun r => r.id == id) with
  | none => rw [hf] at hc; exact absurd hc (by simp)
  | some r =>
      rw [hf] at hc
      simp only [Option.map_some', Option.some_inj] at hc
      subst hc
      have hr := (List.all_eq_true.mp h1) r (List.mem_of_find?_eq_some hf)
      simp only [secretSafeRowB, Bool.and_eq_true] at hr
      simp only [secretSafeConfigB, Bool.and_eq_true]
      refine ⟨⟨⟨⟨⟨hr.1.1.1.1, hr.1.1.1.2⟩, hr.1.1.2⟩, hr.1.2⟩, hr.2⟩, ?_⟩
      rw [List.all_eq_true]
      intro t htmem
      exact (List.all_eq_true.mp h2) t (List.mem_of_mem_filter htmem)

/-- Rows produced by the trigger-insertion loop preserve safety. -/
theorem insertedRows_safe (s : String) (n cfg : Nat) (ts : List WebhookTrigger)
    (h : ts.all (secretSafeTriggerB s) = true) :
    (insertedRows n cfg ts).all (secretSafeTriggerB s) = true := by
  induction ts generalizing n with
  | nil => rfl
  | cons t ts ih =>
      simp only [List.all_cons, Bool.and_eq_true] at h
      simp only [insertedRows, List.all_cons, Bool.and_eq_true]
      exact ⟨h.1, ih (n + 1) h.2⟩

/-- Shape of the config value `UpdateWebhookConfig` hands back on
success. -/
theorem UpdateWebhookConfig_ok_snd (db : DB) (config : WebhookConfig)
    (now : String) (f : FaultSpec) (db2 : DB) (c2 : WebhookConfig)
    (h : UpdateWebhookConfig db config now f = .ok (db2, c2)) :
    c2 = { config with
      triggers := insertedRows db.nextTriggerID config.id config.triggers } := by
  unfold UpdateWebhookConfig at h
  by_cases hf1 : f.updateFails = true
  · simp [hf1] at h
  · by_cases ht : (db.webhookConfigs.countP (fun r => r.id == config.id)) = 0
    · simp [hf1, ht] at h
    · by_cases hf2 : f.deleteTriggersFails = true
      · simp [hf1, ht, hf2] at h
      · simp only [hf1, ht, hf2, if_false, Bool.false_eq_true, ite_false] at h
        split at h
        · cases h
        · split at h
          · cases h
          · simp only [Except.ok.injEq, Prod.mk.injEq] at h
            exact h.2.symm

/-- The config of the C1 counterexample, with a secret whose mask differs
from it. -/
def c1config : WebhookConfig :=
  ⟨0, "Prod hook", "https://hooks.example.com/x", "hunter2secret99", true,
   "0001-01-01T00:00:00Z", "0001-01-01T00:00:00Z", []⟩

/-- Host extraction for the C1 counterexample. -/
def c1parseHost : String → Option String := fun _ => some "hooks.example.com"

/-- Resolver for the C1 counterexample (a public address). -/
def c1resolve : String → Option (List IP) := fun _ => some [IP.v4 93 184 216 34]

/-- Store holding the C1 config (it receives id 1). -/
def c1db : DB := (StoreWebhookConfig DB.empty c1config "2024-01-01T00:00:00Z").1

/-- Counterexample to claim C1 as stated: the create (POST) response and
the enable/disable response both serialize the config verbatim, so the
stored secret appears in them in plain text (not as its mask, which
differs from it); both responses are successful ones (status 200). -/
theorem C1_counterexample :
    "hunter2secret99" ∈
      ((handleCreateWebhook false c1parseHost c1resolve DB.empty c1config
        "2024-01-01T00:00:00Z").2.2).strVals ∧
    (handleCreateWebhook false c1parseHost c1resolve DB.empty c1config
      "2024-01-01T00:00:00Z").2.1 = 200 ∧
    "hunter2secret99" ∈ ((handleEnableWebhook c1db 1 false "2024-02-02").2.2).strVals ∧
    (handleEnableWebhook c1db 1 false "2024-02-02").2.1 = 200 ∧
    MaskSecret "hunter2secret99" ≠ "hunter2secret99" := by
  exact ⟨by decide, rfl, by decide, rfl, by decide⟩

/-- Claim C1 amended: the list, get and update responses expose at most
the masked hint of a stored secret — a string distinct from every
non-secret serialized text field (and from the masks) never occurs in
their successful response bodies, so in particular the secret itself
never does; the create and enable/disable responses, in contrast,
serialize the config verbatim, plain secret included (see the
counterexample). -/
theorem C1_masked_on_list_get_update (db : DB) (s now : String)
    (getID updID : Nat) (body : WebhookConfig) (dssrf : Bool)
    (parseHost : String → Option String) (resolve : String → Option (List IP))
    (h1 : db.webhookConfigs.all (secretSafeRowB s) = true)
    (h2 : db.webhookTriggers.all (secretSafeTriggerB s) = true)
    (h3 : secretSafeConfigB s body = true) :
    s ∉ ((handleListWebhooks db).2).strVals ∧
    ((handleGetWebhook db getID).1 = 200 →
      s ∉ ((handleGetWebhook db getID).2).strVals) ∧
    ((handleUpdateWebhook dssrf parseHost resolve db updID body now).2.1 = 200 →
      s ∉ ((handleUpdateWebhook dssrf parseHost resolve db updID body now).2.2).strVals) := by
  refine ⟨?_, ?_, ?_⟩
  · have hsafe := assembled_configs_safe s db h1 h2
    have := not_mem_strValsList_masked s (GetAllWebhookConfigs db) hsafe
    simp only [handleListWebhooks, Jx.strVals, strValsFields, List.append_nil,
      List.nil_append]
    exact this
  · cases hg : GetWebhookConfig db getID with
    | none => intro h200; simp [handleGetWebhook, hg] at h200
    | some c =>
        intro _
        have hsafe := got_config_safe s db getID c h1 h2 hg
        have := not_mem_strVals_masked s c hsafe
        simp only [handleGetWebhook, hg, Jx.strVals, strValsFields,
          List.append_nil, List.nil_append]
        exact this
  · cases hv : ValidateWebhookConfig dssrf parseHost resolve
        { body with id := updID } with
    | error e => intro h200; simp [handleUpdateWebhook, hv] at h200
    | ok u =>
        cases hu : UpdateWebhookConfig db { body with id := updID } now
            noFaults with
        | error e => intro h200; simp [handleUpdateWebhook, hv, hu] at h200
        | ok p =>
            intro _
            obtain ⟨db2, c2⟩ := p
            have hc2 := UpdateWebhookConfig_ok_snd db { body with id := updID }
              now noFaults db2 c2 hu
            have hsafe : secretSafeConfigB s c2 = true := by
              subst hc2
              simp only [secretSafeConfigB, Bool.and_eq_true] at h3 ⊢
              exact ⟨h3.1, insertedRows_safe s db.nextTriggerID updID
                body.triggers h3.2⟩
            have := not_mem_strVals_masked s c2 hsafe
            simp only [handleUpdateWebhook, hv, hu, Jx.strVals, strValsFields,
              List.append_nil, List.nil_append]
            exact this

/-- Database of the C1 witness: one stored config with a secret and one
trigger. -/
def w1db : DB :=
  (StoreWebhookConfig DB.empty
    ⟨0, "hook A", "https://a.example.com/h", "topsecretvalue42", true, "", "",
     [⟨0, 0, "keyword", "urgent", "contains", true⟩]⟩ "2024-01-01").1

/-- Update body of the C1 witness. -/
def w1body : WebhookConfig :=
  ⟨0, "hook B", "https://b.example.com/h", "othersecret9876", true, "", "",
   [⟨0, 0, "sender", "42@s.whatsapp.net", "exact", true⟩]⟩

/-- Witness for C1 with the stored secret as the probe string. -/
theorem C1_witness :
    (w1db.webhookConfigs.all (secretSafeRowB "topsecretvalue42") = true) ∧
    (w1db.webhookTriggers.all (secretSafeTriggerB "topsecretvalue42") = true) ∧
    (secretSafeConfigB "topsecretvalue42" w1body = true) ∧
    "topsecretvalue42" ∉ ((handleListWebhooks w1db).2).strVals ∧
    ((handleGetWebhook w1db 1).1 = 200 →
      "topsecretvalue42" ∉ ((handleGetWebhook w1db 1).2).strVals) ∧
    ((handleUpdateWebhook true c1parseHost c1resolve w1db 1 w1body "2024-02-02").2.1 = 200 →
      "topsecretvalue42" ∉
        ((handleUpdateWebhook true c1parseHost c1resolve w1db 1 w1body
          "2024-02-02").2.2).strVals) := by
  have h := C1_masked_on_list_get_update w1db "topsecretvalue42" "2024-02-02"
    1 1 w1body true c1parseHost c1resolve (by decide) (by decide) (by decide)
  exact ⟨by decide, by decide, by decide, h.1, h.2.1, h.2.2⟩

/-! ### C4: transactional webhook config update -/

/-- The UPDATE statement applied to one config row. -/
def updateRow (config : WebhookConfig) (now : String) (r : ConfigRow) : ConfigRow :=
  if r.id = config.id then
    { r with name := config.name, webhookURL := config.webhookURL,
             secretToken := config.secretToken, enabled := config.enabled,
             updatedAt := now }
  else r

theorem insertTriggersLoop_noFail (cfgID : Nat) (ts : List WebhookTrigger) :
    ∀ (i : Nat) (tx : DB),
      insertTriggersLoop cfgID (fun _ => false) ts i tx =
        .ok { tx with
          webhookTriggers := tx.webhookTriggers ++
            insertedRows tx.nextTriggerID cfgID ts
          nextTriggerID := tx.nextTriggerID + ts.length } := by
  induction ts with
  | nil => intro i tx; simp [insertTriggersLoop, insertedRows]
  | cons t ts ih =>
      intro i tx
      simp only [insertTriggersLoop, Bool.false_eq_true, if_false]
      rw [ih]
      simp only [insertedRows, List.length_cons]
      refine congrArg Except.ok ?_
      have harith : tx.nextTriggerID + 1 + ts.length =
          tx.nextTriggerID + (ts.length + 1) := by omega
      simp [List.append_assoc, harith]

theorem insertedRows_filter_eq (n cfg : Nat) (ts : List WebhookTrigger) :
    (insertedRows n cfg ts).filter (fun t => t.webhookConfigID = cfg) =
      insertedRows n cfg ts := by
  induction ts generalizing n with
  | nil => rfl
  | cons t ts ih => simp [insertedRows, List.filter, ih]

theorem mem_insertedRows_owner (n cfg : Nat) (ts : List WebhookTrigger) :
    ∀ a ∈ insertedRows n cfg ts, a.webhookConfigID = cfg := by
  induction ts generalizing n with
  | nil => simp [insertedRows]
  | cons t ts ih =>
      intro a ha
      rcases List.mem_cons.mp ha with h | h
      · subst h; rfl
      · exact ih (n + 1) a h

theorem insertedRows_filter_ne (n cfg : Nat) (ts : List WebhookTrigger) :
    (insertedRows n cfg ts).filter (fun t => t.webhookConfigID ≠ cfg) = [] := by
  rw [List.filter_eq_nil_iff]
  intro a ha
  simp [mem_insertedRows_owner n cfg ts a ha]

theorem filter_ne_then_eq (cfg : Nat) (l : List WebhookTrigger) :
    ((l.filter (fun t => t.webhookConfigID ≠ cfg)).filter
      (fun t => t.webhookConfigID = cfg)) = [] := by
  induction l with
  | nil => rfl
  | cons a l ih =>
      by_cases h : a.webhookConfigID = cfg <;> simp [List.filter, h, ih]

theorem filter_ne_idem_triggers (cfg : Nat) (l : List WebhookTrigger) :
    ((l.filter (fun t => t.webhookConfigID ≠ cfg)).filter
      (fun t => t.webhookConfigID ≠ cfg)) =
      l.filter (fun t => t.webhookConfigID ≠ cfg) := by
  induction l with
  | nil => rfl
  | cons a l ih =>
      by_cases h : a.webhookConfigID = cfg <;> simp [List.filter, h, ih]

/-- The success shape of the update: published state and returned
config. -/
theorem UpdateWebhookConfig_ok (db : DB) (config : WebhookConfig) (now : String)
    (ht : db.webhookConfigs.countP (fun r => r.id == config.id) ≠ 0) :
    UpdateWebhookConfig db config now noFaults = .ok
      ({ db with
          webhookConfigs := db.webhookConfigs.map (updateRow config now)
          webhookTriggers :=
            db.webhookTriggers.filter (fun t => t.webhookConfigID ≠ config.id) ++
              insertedRows db.nextTriggerID config.id config.triggers
          nextTriggerID := db.nextTriggerID + config.triggers.length },
       { config with
          triggers := insertedRows db.nextTriggerID config.id config.triggers }) := by
  unfold UpdateWebhookConfig
  simp only [noFaults, Bool.false_eq_true, if_false, ht, ite_false]
  rw [insertTriggersLoop_noFail]
  simp [updateRow]

/-- Claim C4: `update_webhook_config` is transactional — with the config
row present the update commits, leaving the config's triggers exactly the
new set (fresh ids, owner id set), other configs' triggers untouched, the
config rows updated (with `updated_at` refreshed) and every other table
unchanged; with 0 rows touched it fails with not-found leaving the store
unchanged; and any failing execution (whatever statement fault is
injected) publishes nothing — the caller keeps the unchanged store. -/
theorem C4_update_transactional (db : DB) (config : WebhookConfig)
    (now : String) (f : FaultSpec) :
    (db.webhookConfigs.countP (fun r => r.id == config.id) = 0 →
      runUpdateWebhookConfig db config now noFaults =
        (db, some "webhook not found")) ∧
    (db.webhookConfigs.countP (fun r => r.id == config.id) ≠ 0 →
      (runUpdateWebhookConfig db config now noFaults).2 = none ∧
      (runUpdateWebhookConfig db config now noFaults).1.webhookTriggers.filter
          (fun t => t.webhookConfigID = config.id) =
        insertedRows db.nextTriggerID config.id config.triggers ∧
      (runUpdateWebhookConfig db config now noFaults).1.webhookTriggers.filter
          (fun t => t.webhookConfigID ≠ config.id) =
        db.webhookTriggers.filter (fun t => t.webhookConfigID ≠ config.id) ∧
      (runUpdateWebhookConfig db config now noFaults).1.webhookConfigs =
        db.webhookConfigs.map (updateRow config now) ∧
      (runUpdateWebhookConfig db config now noFaults).1.chats = db.chats ∧
      (runUpdateWebhookConfig db config now noFaults).1.messages = db.messages ∧
      (runUpdateWebhookConfig db config now noFaults).1.webhookLogs =
        db.webhookLogs) ∧
    ((runUpdateWebhookConfig db config now f).2.isSome = true →
      (runUpdateWebhookConfig db config now f).1 = db) := by
  refine ⟨?_, ?_, ?_⟩
  · intro ht
    unfold runUpdateWebhookConfig UpdateWebhookConfig
    simp [noFaults, ht]
  · intro ht
    rw [runUpdateWebhookConfig, UpdateWebhookConfig_ok db config now ht]
    refine ⟨rfl, ?_, ?_, rfl, rfl, rfl, rfl⟩
    · rw [List.filter_append, filter_ne_then_eq, insertedRows_filter_eq]
      rfl
    · rw [List.filter_append, filter_ne_idem_triggers, insertedRows_filter_ne,
        List.append_nil]
  · intro hs
    cases hu : UpdateWebhookConfig db config now f with
    | error e => simp [runUpdateWebhookConfig, hu]
    | ok p => rw [runUpdateWebhookConfig, hu] at hs ⊢; simp at hs

/-- Store of the C4/C5 witnesses: one config (id 1) with one trigger and
one delivery log. -/
def w4db : DB :=
  { chats := [], messages := [],
    webhookConfigs := [⟨1, "hook", "https://a.example.com/h", "s", true,
      "2024-01-01", "2024-01-01"⟩],
    webhookTriggers := [⟨1, 1, "all", "", "exact", true⟩],
    webhookLogs := [⟨1, 1, "m1", "c1", "all", "", "p", 200, [], 1, none,
      "2024-01-01"⟩],
    nextConfigID := 2, nextTriggerID := 2, nextLogID := 2 }

/-- Replacement config of the C4 witness: id 1, two new triggers. -/
def w4cfg : WebhookConfig :=
  ⟨1, "hook2", "https://b.example.com/h", "s2", true, "", "",
   [⟨0, 0, "keyword", "urgent", "contains", true⟩,
    ⟨0, 0, "sender", "42", "exact", true⟩]⟩

/-- Missing config (id 99) of the C4 witness. -/
def w4missing : WebhookConfig :=
  ⟨99, "nope", "https://c.example.com/h", "", true, "", "", []⟩

/-- Witness for C4: a successful update replaces the triggers and keeps
everything else; updating a missing id reports not-found and changes
nothing. -/
theorem C4_witness :
    (runUpdateWebhookConfig w4db w4cfg "2024-02-02" noFaults).2 = none ∧
    (runUpdateWebhookConfig w4db w4cfg "2024-02-02" noFaults).1.webhookTriggers.filter
        (fun t => t.webhookConfigID = w4cfg.id) =
      insertedRows w4db.nextTriggerID w4cfg.id w4cfg.triggers ∧
    (runUpdateWebhookConfig w4db w4cfg "2024-02-02" noFaults).1.webhookLogs =
      w4db.webhookLogs ∧
    runUpdateWebhookConfig w4db w4missing "2024-02-02" noFaults =
      (w4db, some "webhook not found") := by
  have h := C4_update_transactional w4db w4cfg "2024-02-02" noFaults
  have hm := C4_update_transactional w4db w4missing "2024-02-02" noFaults
  have hb := h.2.1 (by decide)
  exact ⟨hb.1, hb.2.1, hb.2.2.2.2.2.2, hm.1 (by decide)⟩

/-! ### C5: cascade delete -/

/-- No row survives a filter excluding its key and still matches it
(generic over the key projection). -/
theorem countP_key_of_filter_ne {α : Type} (k : α → Nat) (id : Nat)
    (l : List α) :
    ((l.filter (fun x => k x ≠ id)).countP (fun x => k x == id)) = 0 := by
  induction l with
  | nil => rfl
  | cons a l ih =>
      by_cases h : k a = id <;> simp [List.filter_cons, List.countP_cons, h, ih]

/-- Counterexample to claim C5 as stated: DeleteWebhookConfig issues its
three DELETE statements outside any transaction, so when the
trigger-delete statement fails the log rows are already gone while the
trigger and config rows remain — an error outcome with a changed store,
impossible for an operation running inside one transaction. -/
theorem C5_counterexample :
    ((DeleteWebhookConfig w4db 1 ⟨false, true, false⟩).2).isSome = true ∧
    (DeleteWebhookConfig w4db 1 ⟨false, true, false⟩).1 ≠ w4db ∧
    (DeleteWebhookConfig w4db 1 ⟨false, true, false⟩).1.webhookLogs = [] ∧
    (DeleteWebhookConfig w4db 1 ⟨false, true, false⟩).1.webhookTriggers =
      w4db.webhookTriggers ∧
    (DeleteWebhookConfig w4db 1 ⟨false, true, false⟩).1.webhookConfigs =
      w4db.webhookConfigs := by
  exact ⟨rfl, by decide, rfl, rfl, rfl⟩

/-- Claim C5 amended: `delete_webhook_config` verifies existence (failing
with not-found otherwise, store unchanged) and then deletes the config's
delivery logs, triggers and config row as three separate autocommit
statements — not inside one transaction (see the counterexample).  After
a fully successful delete no log row and no trigger row references the
deleted config_id, the config row is gone, and chats/messages are
untouched. -/
theorem C5_delete_cascade (db : DB) (id : Nat) (f : DeleteFaults) :
    (db.webhookConfigs.countP (fun r => r.id == id) = 0 →
      DeleteWebhookConfig db id f = (db, some "webhook not found")) ∧
    (db.webhookConfigs.countP (fun r => r.id == id) ≠ 0 →
      (DeleteWebhookConfig db id noDeleteFaults).2 = none ∧
      (DeleteWebhookConfig db id noDeleteFaults).1.webhookLogs =
        db.webhookLogs.filter (fun l => l.webhookConfigID ≠ id) ∧
      (DeleteWebhookConfig db id noDeleteFaults).1.webhookTriggers =
        db.webhookTriggers.filter (fun t => t.webhookConfigID ≠ id) ∧
      (DeleteWebhookConfig db id noDeleteFaults).1.webhookConfigs =
        db.webhookConfigs.filter (fun r => r.id ≠ id) ∧
      (DeleteWebhookConfig db id noDeleteFaults).1.chats = db.chats ∧
      (DeleteWebhookConfig db id noDeleteFaults).1.messages = db.messages ∧
      (DeleteWebhookConfig db id noDeleteFaults).1.webhookLogs.countP
        (fun l => l.webhookConfigID == id) = 0 ∧
      (DeleteWebhookConfig db id noDeleteFaults).1.webhookTriggers.countP
        (fun t => t.webhookConfigID == id) = 0 ∧
      (DeleteWebhookConfig db id noDeleteFaults).1.webhookConfigs.countP
        (fun r => r.id == id) = 0) := by
  constructor
  · intro ht
    unfold DeleteWebhookConfig
    simp [ht]
  · intro ht
    have hrun : DeleteWebhookConfig db id noDeleteFaults =
        ({ db with
            webhookLogs := db.webhookLogs.filter (fun l => l.webhookConfigID ≠ id)
            webhookTriggers :=
              db.webhookTriggers.filter (fun t => t.webhookConfigID ≠ id)
            webhookConfigs := db.webhookConfigs.filter (fun r => r.id ≠ id) },
         none) := by
      unfold DeleteWebhookConfig
      simp [noDeleteFaults, ht]
    rw [hrun]
    refine ⟨rfl, rfl, rfl, rfl, rfl, rfl, ?_, ?_, ?_⟩
    · exact countP_key_of_filter_ne (fun l => l.webhookConfigID) id db.webhookLogs
    · exact countP_key_of_filter_ne (fun t => t.webhookConfigID) id db.webhookTriggers
    · exact countP_key_of_filter_ne (fun r => r.id) id db.webhookConfigs

/-- Witness for C5: the successful delete on the concrete store leaves no
referencing rows, and deleting a missing id reports not-found. -/
theorem C5_witness :
    (DeleteWebhookConfig w4db 1 noDeleteFaults).2 = none ∧
    (DeleteWebhookConfig w4db 1 noDeleteFaults).1.webhookLogs.countP
      (fun l => l.webhookConfigID == 1) = 0 ∧
    (DeleteWebhookConfig w4db 1 noDeleteFaults).1.webhookTriggers.countP
      (fun t => t.webhookConfigID == 1) = 0 ∧
    (DeleteWebhookConfig w4db 1 noDeleteFaults).1.webhookConfigs.countP
      (fun r => r.id == 1) = 0 ∧
    DeleteWebhookConfig w4db 99 noDeleteFaults = (w4db, some "webhook not found") := by
  have h := C5_delete_cascade w4db 1 noDeleteFaults
  have hm := C5_delete_cascade w4db 99 noDeleteFaults
  have hb := h.2 (by decide)
  exact ⟨hb.1, hb.2.2.2.2.2.2.1, hb.2.2.2.2.2.2.2.1, hb.2.2.2.2.2.2.2.2,
    hm.1 (by decide)⟩

/-! ### C3: delivery retry loop -/

set_option maxHeartbeats 4000000 in
/-- Claim C3: for every (config, payload) pair the delivery loop makes at
most 5 HTTP attempts, with the sleep between consecutive attempts k and
k+1 equal to entry k of the 1, 2, 4, 8, 16 schedule; it stops at the
first attempt whose status is in [200, 300) (every earlier attempt
failed, and a run that never succeeds makes exactly 5 attempts); exactly
one log row is appended per attempt made (attempt counts 1..n, ids
consecutive), and a row's delivered_at is non-null exactly when that
attempt succeeded. -/
theorem C3_delivery_retry (http : Nat → HTTPOutcome) (nowAt : Nat → Int)
    (tsAt : Nat → String) (db : DB) (config : WebhookConfig)
    (marshal : Nat → String) (messageID chatJID : String)
    (trigger : WebhookTrigger) :
    attemptsMade http ≤ 5 ∧
    (DeliverWebhook http nowAt tsAt db config true marshal messageID chatJID
        trigger).1.webhookLogs =
      db.webhookLogs ++ (List.range (attemptsMade http)).map
        (expectedLog http nowAt tsAt config.id messageID chatJID trigger
          marshal db.nextLogID) ∧
    (DeliverWebhook http nowAt tsAt db config true marshal messageID chatJID
        trigger).2 =
      (List.range (attemptsMade http - 1)).map
        (fun i => backoffIntervals.getD i 0) ∧
    ((List.range (attemptsMade http - 1)).all
      (fun i => !(httpSuccess http (i + 1)))) = true ∧
    (httpSuccess http (attemptsMade http) || (attemptsMade http == 5)) = true ∧
    (((List.range (attemptsMade http)).map
        (expectedLog http nowAt tsAt config.id messageID chatJID trigger
          marshal db.nextLogID)).all
      (fun l => (l.deliveredAt.isSome) == httpSuccess http l.attemptCount)) = true := by
  by_cases hs1 : (sendHTTPRequest (http 1)).1 = true <;>
  by_cases hs2 : (sendHTTPRequest (http 2)).1 = true <;>
  by_cases hs3 : (sendHTTPRequest (http 3)).1 = true <;>
  by_cases hs4 : (sendHTTPRequest (http 4)).1 = true <;>
  by_cases hs5 : (sendHTTPRequest (http 5)).1 = true <;>
    simp [attemptsMade, httpSuccess, DeliverWebhook, deliverLoop,
      StoreWebhookLog, expectedLog, List.range_succ, List.append_assoc,
      Nat.add_assoc, hs1, hs2, hs3, hs4, hs5, backoffIntervals]

end Bridge
